import Mathlib

/-!
Verification of the data-access layer in `db.py` of awesome-python-webapp.

The development shallowly embeds the module's connection/transaction
lifecycle machinery: the lazy connection handle `_LasyConnection`, the
execution-local context `_DbCtx`, the two nestable scope types
`_ConnectionCtx` and `_TransactionCtx`, the statement runner `_update`,
the query helper `select_int`, and the module's top-level evaluation.
Driver-level outcomes (raw commit / rollback / connect results) are
parameters, since the raw connection is an external collaborator.
Logging and wall-clock profiling are pure observations with no effect on
control flow or state and are not modelled.
-/

namespace DbPy

/-- Failures that the embedded code can raise.  `attributeError`,
`nameError`, `typeError`, `indexError` model the Python built-in
exceptions of the same names; `dbError` and `multicolumnError` model the
module's own `DBError` / `MulticolumnError`; `driver` stands for an
arbitrary failure coming out of the underlying database driver. -/
inductive Err where
  | attributeError (name : String) : Err
  | nameError (name : String) : Err
  | typeError (msg : String) : Err
  | indexError (msg : String) : Err
  | dbError (msg : String) : Err
  | multicolumnError (msg : String) : Err
  | driver (msg : String) : Err
  deriving Repr, DecidableEq

/-- Observable events emitted by the embedded code, in program order:
`ctxInit` is `_db_ctx.init()`, `ctxCleanup` is a `_db_ctx.cleanup()`
call, `txCommitCall` / `txRollbackCall` are entries into
`_TransactionCtx.commit()` / `_TransactionCtx.rollback()` (the
commit-or-rollback decisions), `connCommit` / `connRollback` are
`commit()` / `rollback()` attempts on the held connection, `connOpen` is
a physical `_db_connect()` call, `sqlExec` is `cursor.execute`, and
`cursorClose` is the `cursor.close()` in a finally block. -/
inductive Ev where
  | ctxInit : Ev
  | ctxCleanup : Ev
  | txCommitCall : Ev
  | txRollbackCall : Ev
  | connCommit : Ev
  | connRollback : Ev
  | connOpen : Ev
  | sqlExec : Ev
  | cursorClose : Ev
  deriving Repr, DecidableEq

/-- An event is a commit-or-rollback decision when it is the entry into
`_TransactionCtx.commit()` or `_TransactionCtx.rollback()`. -/
def isDecision : Ev → Bool
  | Ev.txCommitCall => true
  | Ev.txRollbackCall => true
  | _ => false

/-- Number of commit-or-rollback decisions in a trace. -/
def decisions : List Ev → Nat
  | [] => 0
  | e :: l => (if isDecision e then 1 else 0) + decisions l

/-! ## The lazy connection handle `_LasyConnection` (db.py lines 68-91)

Python instance attributes are an explicit dictionary, because the bug
relevant here is exactly an attribute-name typo: `__init__` stores into
`self.connect` while every method reads `self.connection`. -/

/-- A Python attribute value: `None` or a raw driver connection
(identified by a number). -/
inductive Attr where
  | pyNone : Attr
  | rawConn (id : Nat) : Attr
  deriving Repr, DecidableEq

/-- Python attribute read `obj.name`: missing attributes raise
`AttributeError(name)`. -/
def getattr (attrs : List (String × Attr)) (name : String) : Except Err Attr :=
  match attrs.lookup name with
  | some v => Except.ok v
  | none => Except.error (Err.attributeError name)

/-- Python attribute write `obj.name = v`. -/
def setattr (attrs : List (String × Attr)) (name : String) (v : Attr) : List (String × Attr) :=
  (name, v) :: attrs.filter (fun p => p.1 != name)

/-- Attribute dictionary of a freshly constructed `_LasyConnection`:
line 71 of db.py executes `self.connect = None` — the attribute written
is literally named `connect`, not `connection`. -/
def _LasyConnection_init : List (String × Attr) := [("connect", Attr.pyNone)]

/-- Embedding of `_LasyConnection.cursor` (db.py lines 73-77): read
`self.connection`; if it is `None`, call `_db_connect()` (outcome given
by `factory`: a fresh raw connection id, or a failure such as the
`_dummy_connect` sentinel's `DBError`), store it, and return a cursor of
the raw connection (modelled by its id) together with the updated
attribute dictionary. -/
def _LasyConnection_cursor (factory : Except Err Nat) (attrs : List (String × Attr)) : Except Err (Nat × List (String × Attr)) × List Ev :=
  match getattr attrs "connection" with
  | Except.error e => (Except.error e, [])
  | Except.ok Attr.pyNone =>
    match factory with
    | Except.error e => (Except.error e, [])
    | Except.ok cid => (Except.ok (cid, setattr attrs "connection" (Attr.rawConn cid)), [Ev.connOpen])
  | Except.ok (Attr.rawConn cid) => (Except.ok (cid, attrs), [])

/-! ## The execution context `_DbCtx` (db.py lines 93-120) -/

/-- State of the thread-local `_DbCtx`, keeping the held connection
handle abstract (Python is duck-typed; `_DbCtx` only forwards to it). -/
structure DbCtxSt (H : Type) where
  connection : Option H
  transactions : Nat
  deriving Repr, DecidableEq

/-- Embedding of `_DbCtx.is_init` (db.py line 103-104):
`not self.connection is None`. -/
def _DbCtx_is_init {H : Type} (s : DbCtxSt H) : Bool :=
  s.connection.isSome

/-- Embedding of `_DbCtx.cleanup` (db.py lines 111-112): the body is the
single statement `self.connection.cleanup()`.  `hc` is the held
handle's `cleanup` method; on `None` the attribute access raises.  Note
that the source never reassigns `self.connection`, so the resulting
state still holds the (cleaned) handle. -/
def _DbCtx_cleanup {H : Type} (hc : H → Except Err H) (s : DbCtxSt H) : Except Err (DbCtxSt H) :=
  match s.connection with
  | none => Except.error (Err.attributeError "cleanup")
  | some h =>
    match hc h with
    | Except.error e => Except.error e
    | Except.ok h2 => Except.ok { s with connection := some h2 }

/-! ## The connection scope `_ConnectionCtx` (db.py lines 123-144)

For the scope-nesting claims the context is abstracted to whether a
handle is held plus the transaction depth; the handle's internal
behaviour is analysed separately above. -/

/-- Abstract `_db_ctx` state for the scope machinery: whether a
connection handle is held, and the transaction nesting depth. -/
structure DbState where
  hasConn : Bool
  transactions : Nat
  deriving Repr, DecidableEq

/-- The method names the class body of `_ConnectionCtx` defines: line
133 defines `__enter__`, line 141 defines `_exit__` (with a single
leading underscore, exactly as in the source). -/
def _ConnectionCtx_methods : List String := ["__enter__", "_exit__"]

/-- Embedding of `_ConnectionCtx.__enter__` (db.py lines 133-139):
`should_cleanup = False; if not _db_ctx.is_init(): _db_ctx.init();
should_cleanup = True`.  `_db_ctx.init()` installs a fresh handle and
resets the depth to 0.  Returns the `should_cleanup` flag. -/
def _ConnectionCtx_enter (s : DbState) : Bool × DbState × List Ev :=
  if s.hasConn then (false, s, [])
  else (true, { hasConn := true, transactions := 0 }, [Ev.ctxInit])

/-- Embedding of the method body at db.py lines 141-144 (the one the
source names `_exit__`): `if self.should_cleanup: _db_ctx.cleanup()`.
The `_db_ctx.cleanup()` call is recorded as an event; per lines 111-112
it does not clear the held handle, so `hasConn` stays unchanged. -/
def _ConnectionCtx_exitBody (should_cleanup : Bool) (s : DbState) : DbState × List Ev :=
  if should_cleanup then (s, [Ev.ctxCleanup]) else (s, [])

/-- Embedding of the statement `with _ConnectionCtx(): body`.  Python's
with statement first looks up the special method `__exit__` on the
manager's class and raises `AttributeError` if it is absent, before
`__enter__` is ever called; only when both lookups succeed does it run
enter, body, and exit. -/
def withConnectionCtx {α : Type} (body : DbState → Except Err α × DbState × List Ev) (s : DbState) : Except Err α × DbState × List Ev :=
  if "__exit__" ∈ _ConnectionCtx_methods then
    let e := _ConnectionCtx_enter s
    let r := body e.2.1
    let x := _ConnectionCtx_exitBody e.1 r.2.1
    (r.1, x.1, e.2.2 ++ r.2.2 ++ x.2)
  else (Except.error (Err.attributeError "__exit__"), s, [])

/-- A nest of `n` connection scopes entered in one execution unit, with
a trivial innermost body (the claim quantifies over pure nesting). -/
def connNest : Nat → DbState → Except Err Unit × DbState × List Ev
  | 0, s => (Except.ok (), s, [])
  | n + 1, s => withConnectionCtx (connNest n) s

/-! ## The transaction scope `_TransactionCtx` (db.py lines 175-224)

`cr` and `rr` below are the outcomes of `commit()` / `rollback()` on the
held connection (external driver behaviour). -/

/-- The normal/failing outcome of a protected block. -/
def bodyRes (b : Option Err) : Except Err Unit :=
  match b with
  | none => Except.ok ()
  | some e => Except.error e

/-- The exception type a `with` statement passes to `__exit__`. -/
def excOf (r : Except Err Unit) : Option Err :=
  match r with
  | Except.ok _ => none
  | Except.error e => some e

/-- Failure-precedence combinator: if the first computation failed, its
failure wins, otherwise the second outcome stands.  This is both the
result of a whole `with` statement (a failure raised by `__exit__`
propagates, otherwise the body's outcome stands, since `__exit__`
returns `None` and so never suppresses the body's exception) and the
effect of a `finally` block whose code fails (its failure supersedes
whatever was propagating out of the `try` part). -/
def seqRes (x : Except Err Unit) (b : Except Err Unit) : Except Err Unit :=
  match x with
  | Except.error e => Except.error e
  | Except.ok _ => b

/-- Embedding of `_TransactionCtx.commit` (db.py lines 208-218):
`try: _db_ctx.connection.commit() except: _db_ctx.connection.rollback();
raise`.  If the commit attempt fails, a rollback is attempted; if that
rollback succeeds, the bare `raise` re-raises the original commit
failure, but if the rollback itself raises, its failure propagates out
of the except block and the original commit failure is lost. -/
def _TransactionCtx_commit (cr rr : Except Err Unit) : Except Err Unit × List Ev :=
  match cr with
  | Except.ok _ => (Except.ok (), [Ev.txCommitCall, Ev.connCommit])
  | Except.error e =>
    match rr with
    | Except.ok _ => (Except.error e, [Ev.txCommitCall, Ev.connCommit, Ev.connRollback])
    | Except.error e2 => (Except.error e2, [Ev.txCommitCall, Ev.connCommit, Ev.connRollback])

/-- Embedding of `_TransactionCtx.rollback` (db.py lines 220-224):
`_db_ctx.connection.rollback()`; its outcome is the rollback attempt's
outcome. -/
def _TransactionCtx_rollback (rr : Except Err Unit) : Except Err Unit × List Ev :=
  (rr, [Ev.txRollbackCall, Ev.connRollback])

/-- Embedding of `_TransactionCtx.__enter__` (db.py lines 184-193): if
the context holds no handle, `_db_ctx.init()` (fresh handle, depth reset
to 0) and remember `should_close_conn = True`; then increment the
transaction depth.  Returns the `should_close_conn` flag. -/
def _TransactionCtx_enter (s : DbState) : Bool × DbState × List Ev :=
  if s.hasConn then (false, { s with transactions := s.transactions + 1 }, [])
  else (true, { hasConn := true, transactions := 1 }, [Ev.ctxInit])

/-- Embedding of `_TransactionCtx.__exit__` (db.py lines 195-206):
decrement the depth first; then `try`: if the depth reached 0, commit
when no failure occurred in the block, otherwise roll back; `finally`:
if this instance opened the connection, `_db_ctx.cleanup()`, whose
outcome is the parameter `clr` (per lines 111-112 it never clears the
handle, so the state is unchanged; with the module's own handle the
call in fact raises `AttributeError`, see the `_DbCtx` and
`_LasyConnection` analyses).  Per Python semantics a failure raised in
the finally block supersedes whatever was propagating out of the try
block, so when the cleanup runs and fails, its error replaces the
commit/rollback outcome; the method returns `None`, so the protected
block's own failure is never suppressed by a normal exit. -/
def _TransactionCtx_exit (own : Bool) (exc : Option Err) (cr rr clr : Except Err Unit) (s : DbState) : Except Err Unit × DbState × List Ev :=
  let s1 : DbState := { s with transactions := s.transactions - 1 }
  let d :=
    if s1.transactions = 0 then
      match exc with
      | none => _TransactionCtx_commit cr rr
      | some _ => _TransactionCtx_rollback rr
    else (Except.ok (), [])
  if own then (seqRes clr d.1, s1, d.2 ++ [Ev.ctxCleanup])
  else (d.1, s1, d.2)

/-- A nest of `n` transaction scopes (`with _TransactionCtx():` nested
`n` deep) whose innermost body finishes with outcome `b`; each inner
scope propagates the inner outcome to the enclosing `__exit__`.  `clr`
is the outcome of the outermost scope's `_db_ctx.cleanup()` call. -/
def runTxNest (cr rr clr : Except Err Unit) (b : Option Err) : Nat → DbState → Except Err Unit × DbState × List Ev
  | 0, s => (bodyRes b, s, [])
  | n + 1, s =>
    let e := _TransactionCtx_enter s
    let r := runTxNest cr rr clr b n e.2.1
    let x := _TransactionCtx_exit e.1 (excOf r.1) cr rr clr r.2.1
    (seqRes x.1 r.1, x.2.1, e.2.2 ++ r.2.2 ++ x.2.2)

/-! ## The statement runner `_update` (db.py lines 302-322)

The body is modelled with the driver steps as parameters: `cursorRes`
is the outcome of `_db_ctx.connection.cursor()`, `execRes` the outcome
of `cursor.execute(sql, args)` carrying `cursor.rowcount` on success,
and `commitRes` the outcome of `_db_ctx.connection.commit()`.  The
placeholder rewriting and logging on lines 305-308 do not affect state
or control flow.  `post_fn` defaults to `None` and every caller in the
module leaves it so; when it is truthy, line 317 evaluates the
undefined name `psot_fn` and raises `NameError`. -/

/-- Embedding of the body of `_update`. -/
def _update (transactions : Nat) (post_fn : Option Unit) (cursorRes : Except Err Unit) (execRes : Except Err Nat) (commitRes : Except Err Unit) : Except Err Nat × List Ev :=
  match cursorRes with
  | Except.error e => (Except.error e, [])
  | Except.ok _ =>
    match execRes with
    | Except.error e => (Except.error e, [Ev.sqlExec, Ev.cursorClose])
    | Except.ok r =>
      if transactions = 0 then
        match commitRes with
        | Except.error e => (Except.error e, [Ev.sqlExec, Ev.connCommit, Ev.cursorClose])
        | Except.ok _ =>
          match post_fn with
          | some _ => (Except.error (Err.nameError "psot_fn"), [Ev.sqlExec, Ev.connCommit, Ev.cursorClose])
          | none => (Except.ok r, [Ev.sqlExec, Ev.connCommit, Ev.cursorClose])
      else (Except.ok r, [Ev.sqlExec, Ev.cursorClose])

/-! ## The query helpers `_select` / `select_int` (db.py lines 251-292) -/

/-- Embedding of `utils.Dict(names, values)`: the record maps the i-th
column name to the i-th value (`zip` stops at the shorter list). -/
def mkDict (names : List String) (values : List Int) : List (String × Int) :=
  names.zip values

/-- Embedding of `d.values()`: the record's values in column order. -/
def dictValues (d : List (String × Int)) : List Int :=
  d.map Prod.snd

/-- Embedding of `_select(sql, True, *args)` (db.py lines 262-268), in
terms of the driver's reported column `names` and result `rows`:
`values = cursor.fetchone()`; when no row matched, `fetchone` yields
`None` and `_select` returns `None`; otherwise the first row is wrapped
into a `Dict(names, values)`. -/
def _select_first (names : List String) (rows : List (List Int)) : Option (List (String × Int)) :=
  match rows with
  | [] => none
  | v :: _ => some (mkDict names v)

/-- Embedding of the body of `select_int` (db.py lines 284-292):
`d = _select(sql, True, *args); if len(d) != 1: raise
MulticolumnError(...); return d.values()[0]`.  When `_select` returned
`None`, `len(d)` raises `TypeError` (length of `None`).  The final
indexing `[0]` on an empty values list would raise `IndexError`; under
the `len(d) == 1` guard that branch is unreachable. -/
def select_int (names : List String) (rows : List (List Int)) : Except Err Int :=
  match _select_first names rows with
  | none => Except.error (Err.typeError "object of type NoneType has no len")
  | some d =>
    if d.length ≠ 1 then Except.error (Err.multicolumnError "Expect only one column.")
    else
      match dictValues d with
      | v :: _ => Except.ok v
      | [] => Except.error (Err.indexError "list index out of range")

/-! ## Top-level evaluation of the module (db.py lines 1-356)

Loading a Python module executes its top-level statements in order.  A
`def` binds its name without evaluating the body (decorators are
evaluated at definition time); a `class` statement evaluates its base
expressions at definition time; an assignment evaluates its right-hand
side.  A reference to a name that is neither a builtin nor previously
bound raises `NameError`. -/

/-- A top-level Python statement, reduced to the names it binds and the
names it must resolve at execution time. -/
inductive TopStmt where
  | pyImport (names : List String) : TopStmt
  | pyDef (name : String) (decorators : List String) : TopStmt
  | pyClass (name : String) (bases : List String) : TopStmt
  | pyAssign (name : String) (deps : List String) : TopStmt
  deriving Repr, DecidableEq

/-- Names a statement binds on success. -/
def stmtBinds : TopStmt → List String
  | TopStmt.pyImport ns => ns
  | TopStmt.pyDef n _ => [n]
  | TopStmt.pyClass n _ => [n]
  | TopStmt.pyAssign n _ => [n]

/-- Execute one top-level statement in environment `env`. -/
def evalStmt (env : List String) : TopStmt → Except Err (List String)
  | TopStmt.pyImport ns => Except.ok (env ++ ns)
  | TopStmt.pyDef n decs =>
    match decs.find? (fun d => !(env.contains d)) with
    | some d => Except.error (Err.nameError d)
    | none => Except.ok (env ++ [n])
  | TopStmt.pyClass n bases =>
    match bases.find? (fun b => !(env.contains b)) with
    | some b => Except.error (Err.nameError b)
    | none => Except.ok (env ++ [n])
  | TopStmt.pyAssign n deps =>
    match deps.find? (fun d => !(env.contains d)) with
    | some d => Except.error (Err.nameError d)
    | none => Except.ok (env ++ [n])

/-- Execute the statements of a module in order, stopping at the first
failure. -/
def evalModule (env : List String) : List TopStmt → Except Err (List String)
  | [] => Except.ok env
  | st :: rest =>
    match evalStmt env st with
    | Except.error e => Except.error e
    | Except.ok env2 => evalModule env2 rest

/-- The Python 2 built-in names relevant to this module.  Built-in
names are case sensitive: the exception root class is `Exception`;
there is no builtin named `exception` and none named `DEBrror`. -/
def pythonBuiltins : List String :=
  ["BaseException", "Exception", "StandardError", "ValueError",
   "TypeError", "AttributeError", "NameError", "KeyError", "IndexError",
   "object", "type", "len", "range", "zip", "dict", "list", "str",
   "int", "None", "True", "False"]

/-- The top-level statements of db.py, in source order: the eleven
module imports and `from utils import Dict` (lines 8-20), `next_str`
(23), `next_id = next_str` (35), `_profiling` (38), `class
DBError(exception)` (46), `class MulticolumnError(DEBrror)` (50),
`_log` (54), `_dummy_connect` (58), `_db_connect = _dummy_connect`
(64), `_db_convert = ?` (65), `class _LasyConnection(object)` (68),
`class _DbCtx(threading.local)` (93), `_db_ctx = _DbCtx()` (120),
`class _ConnectionCtx(object)` (123), `connection` (147),
`with_connection` (156), `class _TransactionCtx(object)` (175),
`transaction` (226), `with_transaction` (238), `_select` (251), the
four functions decorated with `@with_connection` (275-322), and
`insert`, `update`, `update_kw` (324-355). -/
def dbModuleTop : List TopStmt :=
  [TopStmt.pyImport ["os", "re", "sys", "time", "uuid", "socket",
     "datetime", "functools", "threading", "logging", "collections"],
   TopStmt.pyImport ["Dict"],
   TopStmt.pyDef "next_str" [],
   TopStmt.pyAssign "next_id" ["next_str"],
   TopStmt.pyDef "_profiling" [],
   TopStmt.pyClass "DBError" ["exception"],
   TopStmt.pyClass "MulticolumnError" ["DEBrror"],
   TopStmt.pyDef "_log" [],
   TopStmt.pyDef "_dummy_connect" [],
   TopStmt.pyAssign "_db_connect" ["_dummy_connect"],
   TopStmt.pyAssign "_db_convert" [],
   TopStmt.pyClass "_LasyConnection" ["object"],
   TopStmt.pyClass "_DbCtx" ["threading"],
   TopStmt.pyAssign "_db_ctx" ["_DbCtx"],
   TopStmt.pyClass "_ConnectionCtx" ["object"],
   TopStmt.pyDef "connection" [],
   TopStmt.pyDef "with_connection" [],
   TopStmt.pyClass "_TransactionCtx" ["object"],
   TopStmt.pyDef "transaction" [],
   TopStmt.pyDef "with_transaction" [],
   TopStmt.pyDef "_select" [],
   TopStmt.pyDef "select_one" ["with_connection"],
   TopStmt.pyDef "select_int" ["with_connection"],
   TopStmt.pyDef "select" ["with_connection"],
   TopStmt.pyDef "_update" ["with_connection"],
   TopStmt.pyDef "insert" [],
   TopStmt.pyDef "update" [],
   TopStmt.pyDef "update_kw" []]

/-! ## Helper lemmas -/

/-- Inside an already-initialized context at transaction depth at least
1, a nest of transaction scopes is inert: every enter is inner, every
exit leaves the depth above 0, so no events are emitted, the state is
restored, and the body's outcome passes through. -/
theorem runTxNest_inner (cr rr clr : Except Err Unit) (b : Option Err) :
    ∀ (n t : Nat), runTxNest cr rr clr b n ⟨true, t + 1⟩ = (bodyRes b, ⟨true, t + 1⟩, []) := by
  intro n
  induction n with
  | zero => intro t; rfl
  | succ k ih =>
    intro t
    have h1 : _TransactionCtx_enter ⟨true, t + 1⟩ = (false, ⟨true, t + 1 + 1⟩, []) := rfl
    have h2 : ∀ (exc : Option Err),
        _TransactionCtx_exit false exc cr rr clr ⟨true, t + 1 + 1⟩ =
          (Except.ok (), ⟨true, t + 1⟩, []) := by
      intro exc
      simp [_TransactionCtx_exit]
    simp only [runTxNest, h1, ih, h2]
    cases b <;> rfl

/-! ## Claim theorems -/

/-- C1: the claim states that for every nesting depth n ≥ 1 of
`_ConnectionCtx` exactly one physical connection is opened and exactly
one `cleanup()` call occurs, on exit of the outermost scope only.  On
the code this fails: the class defines `_exit__` (line 141), not the
special method `__exit__`, so Python's with statement raises
`AttributeError` without entering any scope; the trace of a depth-1 (or
any deeper) nest is empty — zero `_db_ctx.init()` calls, zero physical
opens, and zero `cleanup()` calls ever occur. -/
theorem c1_connection_scope_exit_never_runs :
    _ConnectionCtx_methods.contains "__exit__" = false ∧
    ∀ (n : Nat) (s : DbState),
      connNest (n + 1) s = (Except.error (Err.attributeError "__exit__"), s, []) := by
  refine ⟨by decide, ?_⟩
  intro n s
  rfl

/-- C2: over a whole nest of transaction scopes run in one execution
unit, exactly one commit-or-rollback decision is made, whatever the
body outcome and the driver's commit/rollback/cleanup outcomes; an
exit whose decremented depth is still positive performs no commit and
no rollback (its full behaviour is the stated tuple: at most the
cleanup call its flag demands); an exit taken at depth 1 (the 1→0
transition) makes exactly one decision. -/
theorem c2_tx_single_decision :
    (∀ (cr rr clr : Except Err Unit) (b : Option Err) (n : Nat),
        decisions (runTxNest cr rr clr b (n + 1) ⟨false, 0⟩).2.2 = 1) ∧
    (∀ (own : Bool) (exc : Option Err) (cr rr clr : Except Err Unit) (hc : Bool) (t : Nat),
        _TransactionCtx_exit own exc cr rr clr ⟨hc, t + 2⟩ =
          ((if own then seqRes clr (Except.ok ()) else Except.ok ()),
           ⟨hc, t + 1⟩, if own then [Ev.ctxCleanup] else [])) ∧
    (∀ (own : Bool) (exc : Option Err) (cr rr clr : Except Err Unit) (hc : Bool),
        decisions (_TransactionCtx_exit own exc cr rr clr ⟨hc, 1⟩).2.2 = 1) := by
  refine ⟨?_, ?_, ?_⟩
  · intro cr rr clr b n
    have h1 : _TransactionCtx_enter ⟨false, 0⟩ = (true, ⟨true, 0 + 1⟩, [Ev.ctxInit]) := rfl
    simp only [runTxNest, h1, runTxNest_inner cr rr clr b n 0]
    cases b <;> cases cr <;> cases rr <;>
      simp [_TransactionCtx_exit, _TransactionCtx_commit, _TransactionCtx_rollback,
        excOf, bodyRes, decisions, isDecision]
  · intro own exc cr rr clr hc t
    cases own <;> simp [_TransactionCtx_exit]
  · intro own exc cr rr clr hc
    cases exc <;> cases own <;> cases cr <;> cases rr <;>
      simp [_TransactionCtx_exit, _TransactionCtx_commit, _TransactionCtx_rollback,
        decisions, isDecision]

/-- C3 counterexample: the claim states that when the protected block
of an outermost transaction scope fails, the original failure still
propagates to the caller.  On the code this fails: the rollback taken
at the 1→0 transition is `_db_ctx.connection.rollback()`, and when that
call itself raises — which the module's own handle always does, since
`_LasyConnection.__init__` never creates the `connection` attribute —
its error propagates out of `__exit__` and replaces the block's
original failure.  Concretely: body fails with a driver error, the
rollback call raises `AttributeError("connection")`, the cleanup
returns normally — the nest fails with the `AttributeError`, not with
the original failure. -/
theorem c3_original_failure_masked_cex :
    runTxNest (Except.ok ()) (Except.error (Err.attributeError "connection")) (Except.ok ())
        (some (Err.driver "original failure")) 1 ⟨false, 0⟩ =
      (Except.error (Err.attributeError "connection"), ⟨true, 0⟩,
       [Ev.ctxInit, Ev.txRollbackCall, Ev.connRollback, Ev.ctxCleanup]) ∧
    Err.attributeError "connection" ≠ Err.driver "original failure" :=
  ⟨rfl, by decide⟩

/-- C3 (amended): when the protected block of a nest of transaction
scopes fails with any error `e`, the outermost exit sees the propagated
failure, the depth is decremented (reaching 0, which is what triggers
the decision), `rollback` — not `commit` — is invoked on the held
connection; the original failure `e` propagates to the caller exactly
when the rollback call and the outermost cleanup return normally,
while a failure of the rollback call, or else of the finally-block
cleanup, propagates instead and replaces `e`.  The commit outcome is
irrelevant since commit is never attempted. -/
theorem c3_rollback_and_propagation_amended :
    ∀ (e : Err) (cr rr clr : Except Err Unit) (n : Nat),
      runTxNest cr rr clr (some e) (n + 1) ⟨false, 0⟩ =
        ((match clr with
          | Except.error ec => Except.error ec
          | Except.ok _ =>
            match rr with
            | Except.error e2 => Except.error e2
            | Except.ok _ => Except.error e),
         ⟨true, 0⟩,
         [Ev.ctxInit, Ev.txRollbackCall, Ev.connRollback, Ev.ctxCleanup]) := by
  intro e cr rr clr n
  have h1 : _TransactionCtx_enter ⟨false, 0⟩ = (true, ⟨true, 0 + 1⟩, [Ev.ctxInit]) := rfl
  simp only [runTxNest, h1, runTxNest_inner cr rr clr (some e) n 0]
  cases rr <;> cases clr <;> rfl

/-- C4 counterexample: the claim states that when the commit at the
1→0 transition fails, the error that propagates is the original commit
failure, never the failure of the defensive rollback attempt.  On the
code this is false: with a driver whose commit fails with one error and
whose rollback fails with another, the bare `raise` on line 218 is
never reached — the rollback failure propagates out of the except
block and masks the commit failure (here with a cleanup that returns
normally, so the masking is the rollback's doing alone). -/
theorem c4_commit_failure_masked_cex :
    _TransactionCtx_exit true none (Except.error (Err.driver "commit failed"))
        (Except.error (Err.driver "rollback failed")) (Except.ok ()) ⟨true, 1⟩ =
      (Except.error (Err.driver "rollback failed"), ⟨true, 0⟩,
       [Ev.txCommitCall, Ev.connCommit, Ev.connRollback, Ev.ctxCleanup]) ∧
    Err.driver "rollback failed" ≠ Err.driver "commit failed" :=
  ⟨rfl, by decide⟩

/-- C4 (amended): if the commit performed at the depth-1-to-0
transition fails, a rollback is attempted on the held connection before
any error propagates; when the defensive rollback succeeds, the
original commit failure propagates, and when the rollback itself fails,
the rollback failure propagates instead (masking the commit failure).
Stated for a cleanup that returns normally, which isolates the
commit-path masking; a failing cleanup would supersede either error in
turn (see the C3 analysis). -/
theorem c4_commit_failure_rollback_attempt :
    ∀ (e : Err) (rr : Except Err Unit),
      _TransactionCtx_exit true none (Except.error e) rr (Except.ok ()) ⟨true, 1⟩ =
        ((match rr with
          | Except.ok _ => Except.error e
          | Except.error e2 => Except.error e2),
         ⟨true, 0⟩,
         [Ev.txCommitCall, Ev.connCommit, Ev.connRollback, Ev.ctxCleanup]) := by
  intro e rr
  cases rr <;> rfl

/-- C5: the claim states that the first cursor call on a fresh
`_LasyConnection` finds no raw connection held, obtains one from the
driver factory and returns a cursor.  On the code this fails: line 71
stores the initial `None` under the attribute name `connect`, so the
attribute dictionary of a fresh handle is exactly `[("connect", None)]`
and the read of `self.connection` on line 74 raises `AttributeError`
whatever the factory would do; no physical connection is ever opened
(the event trace is empty). -/
theorem c5_lasy_connection_cursor_bug :
    (∀ (factory : Except Err Nat),
        _LasyConnection_cursor factory _LasyConnection_init =
          (Except.error (Err.attributeError "connection"), [])) ∧
    _LasyConnection_init.map Prod.fst = ["connect"] :=
  ⟨fun _ => rfl, rfl⟩

/-- C6: the claim states that `_DbCtx.cleanup` calls cleanup on the
held handle and then clears the held reference, so that `is_init()` is
false immediately afterwards.  On the code the second half fails: the
body of `cleanup` is the single statement `self.connection.cleanup()`
and never reassigns `self.connection`, so for every handle whose own
cleanup returns normally the context still holds the handle and
`is_init()` remains true. -/
theorem c6_cleanup_keeps_handle :
    ∀ (H : Type) (f : H → H) (h : H) (t : Nat),
      _DbCtx_cleanup (fun x => Except.ok (f x)) ⟨some h, t⟩ =
        Except.ok (⟨some (f h), t⟩ : DbCtxSt H) ∧
      _DbCtx_is_init (⟨some (f h), t⟩ : DbCtxSt H) = true := by
  intro H f h t
  exact ⟨rfl, rfl⟩

/-- C7: for a statement run through the body of `_update` (all callers
in the module leave `post_fn` as `None`): at ambient transaction depth
0 the connection commit is attempted immediately after `cursor.execute`
(the only events are execute, commit, cursor close, in that order) and,
when the commit returns normally, the affected row count is returned;
at depth ≥ 1 no commit is attempted at all and the row count is
returned, whatever the driver would answer to a commit. -/
theorem c7_update_autocommit :
    (∀ (r : Nat) (commitRes : Except Err Unit),
        (_update 0 none (Except.ok ()) (Except.ok r) commitRes).2 =
          [Ev.sqlExec, Ev.connCommit, Ev.cursorClose]) ∧
    (∀ (r : Nat),
        _update 0 none (Except.ok ()) (Except.ok r) (Except.ok ()) =
          (Except.ok r, [Ev.sqlExec, Ev.connCommit, Ev.cursorClose])) ∧
    (∀ (t r : Nat) (commitRes : Except Err Unit),
        _update (t + 1) none (Except.ok ()) (Except.ok r) commitRes =
          (Except.ok r, [Ev.sqlExec, Ev.cursorClose])) := by
  refine ⟨?_, ?_, ?_⟩
  · intro r c; cases c <;> rfl
  · intro r; rfl
  · intro t r c; simp [_update]

/-- C8: `select_int` delegates to the single-row select; when the
resulting record has exactly one column it returns that column's value,
and when it has two or more columns it raises
`MulticolumnError("Expect only one column.")`. -/
theorem c8_select_int_column_check :
    ∀ (names : List String) (row : List Int) (rest : List (List Int)),
      (∀ p : String × Int, names.zip row = [p] →
          select_int names (row :: rest) = Except.ok p.2) ∧
      (2 ≤ (names.zip row).length →
          select_int names (row :: rest) =
            Except.error (Err.multicolumnError "Expect only one column.")) := by
  intro names row rest
  constructor
  · intro p hp
    simp [select_int, _select_first, mkDict, hp, dictValues]
  · intro h2
    have hne : (names.zip row).length ≠ 1 := by omega
    simp only [select_int, _select_first, mkDict]
    rw [if_pos hne]

/-- C8 witness: a one-column result yields the value, a two-column
result raises the multicolumn error. -/
theorem c8_select_int_column_check_witness :
    select_int ["a"] [[7]] = Except.ok 7 ∧
    select_int ["a", "b"] [[1, 2]] =
      Except.error (Err.multicolumnError "Expect only one column.") :=
  ⟨(c8_select_int_column_check ["a"] [7] []).1 ("a", 7) rfl,
   (c8_select_int_column_check ["a", "b"] [1, 2] []).2 (by decide)⟩

/-- C9: executing the module's top level fails with a name-resolution
error: the class statement `class DBError(exception)` on line 46
evaluates the undefined base name `exception` (there is no such
builtin, only `Exception`), so the load stops there with `NameError`;
moreover the base name `DEBrror` of `MulticolumnError` is bound nowhere
in the module and is no builtin either, so neither error class can ever
be constructed by the `NotInitialized` sentinel or by `select_int`. -/
theorem c9_module_load_name_error :
    evalModule pythonBuiltins dbModuleTop = Except.error (Err.nameError "exception") ∧
    pythonBuiltins.contains "exception" = false ∧
    (pythonBuiltins ++ (dbModuleTop.map stmtBinds).flatten).contains "DEBrror" = false :=
  ⟨rfl, by decide, by decide⟩

/-- C10: for a `select_int` call whose query matches zero rows the
inner single-row select yields the absent value `None`, and
`select_int` then raises a `TypeError` when taking `len(None)` — so it
neither returns an absent value nor raises `MulticolumnError`. -/
theorem c10_select_int_zero_rows :
    ∀ (names : List String),
      select_int names [] =
        Except.error (Err.typeError "object of type NoneType has no len") := by
  intro names
  rfl

end DbPy
